import Mathlib

/-!
Shallow embedding of the geometry core of the `arcade` slice:
`arcade/types/rect.py` (Rect and its named constructors LRBT, LBWH, XYWH,
XYRR, Viewport and its operations), `arcade/types/box.py` (Box, XYZWHD,
LRBTNF and its operations), and `arcade/draw/parabola.py`.

Python floats are modelled as rationals (ℚ): every operation used by the
embedded code (+, -, *, /, min, max, abs, comparisons) is exact on ℚ, and
the claims under study are statements of real arithmetic.  Division by zero
follows Lean's total convention `q / 0 = 0`; the claims that involve
division restrict to nonzero sizes.  Each definition mirrors its Python
source line by line, argument order included.
-/

/-- A 2D point, modelling pyglet's Vec2 as used by rect.py. -/
structure Vec2 where
  x : ℚ
  y : ℚ
deriving DecidableEq

/-- A 3D point, modelling pyglet's Vec3 / Point3 as used by box.py. -/
structure Vec3 where
  x : ℚ
  y : ℚ
  z : ℚ
deriving DecidableEq

/-- The eight stored fields of `Rect` (a NamedTuple in the source). -/
structure Rect where
  left : ℚ
  right : ℚ
  bottom : ℚ
  top : ℚ
  width : ℚ
  height : ℚ
  x : ℚ
  y : ℚ
deriving DecidableEq

/-- Constructor `LRBT(left, right, bottom, top)`: `LRBT.as_new_attrs`. -/
def LRBT (left right bottom top : ℚ) : Rect :=
  let width := right - left
  let height := top - bottom
  let x := left + width / 2
  let y := bottom + height / 2
  ⟨left, right, bottom, top, width, height, x, y⟩

/-- Constructor `LBWH(left, bottom, width, height)`: `LBWH.as_new_attrs`. -/
def LBWH (left bottom width height : ℚ) : Rect :=
  let right := left + width
  let top := bottom + height
  let x := left + width / 2
  let y := bottom + height / 2
  ⟨left, right, bottom, top, width, height, x, y⟩

/-- Constructor `XYWH(x, y, width, height)`: `XYWH.to_rect_attrs`.
The source computes `bottom` and `top` from `width`, exactly as written. -/
def XYWH (x y width height : ℚ) : Rect :=
  let left := x - width / 2
  let right := x + width / 2
  let bottom := y - width / 2
  let top := y + width / 2
  ⟨left, right, bottom, top, width, height, x, y⟩

/-- Constructor `XYRR(x, y, half_width, half_height)`: `XYRR.to_rect_attrs`.
The source computes `bottom` and `top` from `half_width`, exactly as written. -/
def XYRR (x y half_width half_height : ℚ) : Rect :=
  let left := x - half_width
  let right := x + half_width
  let bottom := y - half_width
  let top := y + half_width
  ⟨left, right, bottom, top, half_width * 2, half_height * 2, x, y⟩

/-- Constructor `Viewport(x, y, width, height)` over integers:
`Viewport.to_rect_attrs` (Python `/` on ints is float division). -/
def Viewport (x y width height : ℤ) : Rect :=
  let left := (x : ℚ) - (width : ℚ) / 2
  let right := (x : ℚ) + (width : ℚ) / 2
  let bottom := (y : ℚ) - (width : ℚ) / 2
  let top := (y : ℚ) + (width : ℚ) / 2
  ⟨left, right, bottom, top, (width : ℚ), (height : ℚ), (x : ℚ), (y : ℚ)⟩

/-- `Rect.move(dx, dy)`: returns `XYWH(self.x + dx, self.y + dy, self.width, self.height)`. -/
def Rect.move (r : Rect) (dx dy : ℚ) : Rect :=
  XYWH (r.x + dx) (r.y + dy) r.width r.height

/-- `Rect.at_position(position)`: returns `XYWH(position.x, position.y, self.width, self.height)`. -/
def Rect.at_position (r : Rect) (position : Vec2) : Rect :=
  XYWH position.x position.y r.width r.height

/-- `Rect.resize(new_size, anchor)`.  The final line of the source is
`return LRBT(adjusted_left, adjusted_right, adjusted_top, adjusted_bottom)`,
with the third and fourth arguments in that order; the embedding keeps it. -/
def Rect.resize (r : Rect) (new_size : Vec2) (anchor : Vec2) : Rect :=
  let anchor_x := r.left + anchor.x * r.width
  let anchor_y := r.bottom + anchor.y * r.height
  let ratio_x := new_size.x / r.width
  let ratio_y := new_size.y / r.height
  let adjusted_left := anchor_x + (r.left - anchor_x) * ratio_x
  let adjusted_right := anchor_x + (r.right - anchor_x) * ratio_x
  let adjusted_top := anchor_y + (r.top - anchor_y) * ratio_y
  let adjusted_bottom := anchor_y + (r.bottom - anchor_y) * ratio_y
  LRBT adjusted_left adjusted_right adjusted_top adjusted_bottom

/-- `Rect.scale(new_scale, anchor)`.  Same final call shape as `resize`:
`return LRBT(adjusted_left, adjusted_right, adjusted_top, adjusted_bottom)`. -/
def Rect.scale (r : Rect) (new_scale : ℚ) (anchor : Vec2) : Rect :=
  let anchor_x := r.left + anchor.x * r.width
  let anchor_y := r.bottom + anchor.y * r.height
  let adjusted_left := anchor_x + (r.left - anchor_x) * new_scale
  let adjusted_right := anchor_x + (r.right - anchor_x) * new_scale
  let adjusted_top := anchor_y + (r.top - anchor_y) * new_scale
  let adjusted_bottom := anchor_y + (r.bottom - anchor_y) * new_scale
  LRBT adjusted_left adjusted_right adjusted_top adjusted_bottom

/-- Python `value or default` on an optional float argument: `None` is falsy,
and so is `0.0`, so both are replaced by the default. -/
def pyFloatOr (v : Option ℚ) (default : ℚ) : ℚ :=
  match v with
  | none => default
  | some q => if q = 0 then default else q

/-- Python `min(value or float("inf"), current)` from `Rect.max_size`:
a missing (or zero, falsy) argument becomes the ceiling `+inf`, and
`min(+inf, current) = current` for every finite `current`, which is how the
infinite case is rendered over ℚ. -/
def pyMinWithInfCeil (v : Option ℚ) (current : ℚ) : ℚ :=
  match v with
  | none => current
  | some q => if q = 0 then current else min q current

/-- `Rect.min_size(width, height)`: `LBWH(left, bottom, max(width or 0.0, self.width),
max(height or 0.0, self.height))`. -/
def Rect.min_size (r : Rect) (width height : Option ℚ) : Rect :=
  LBWH r.left r.bottom (max (pyFloatOr width 0) r.width) (max (pyFloatOr height 0) r.height)

/-- `Rect.max_size(width, height)`: `LBWH(left, bottom, min(width or inf, self.width),
min(height or inf, self.height))`. -/
def Rect.max_size (r : Rect) (width height : Option ℚ) : Rect :=
  LBWH r.left r.bottom (pyMinWithInfCeil width r.width) (pyMinWithInfCeil height r.height)

/-- `Rect.union(other)`: componentwise min/max of the four bounds, via `LRBT`. -/
def Rect.union (r other : Rect) : Rect :=
  LRBT (min r.left other.left) (max r.right other.right)
    (min r.bottom other.bottom) (max r.top other.top)

/-- `Rect.overlaps(other)`: `u = self | other; return u.width > 0 or u.height > 0`. -/
def Rect.overlaps (r other : Rect) : Bool :=
  let u := r.union other
  decide (u.width > 0) || decide (u.height > 0)

/-- `Rect.collides(other)`: the edge-comparison test with non-strict bounds. -/
def Rect.collides (r other : Rect) : Bool :=
  (decide (r.right ≥ other.left) && decide (other.right ≥ r.left)) &&
    (decide (r.top ≥ other.bottom) && decide (other.top ≥ r.bottom))

/-- `Rect.intersect(other)`: `None` when `collides` is false, else
`LRBT(max lefts, min rights, max bottoms, min tops)`. -/
def Rect.intersect (r other : Rect) : Option Rect :=
  if r.collides other = false then none
  else some (LRBT (max r.left other.left) (min r.right other.right)
    (max r.bottom other.bottom) (min r.top other.top))

/-- `Rect.point_in_rect(point)`: strict inequalities on all four bounds. -/
def Rect.point_in_rect (r : Rect) (point : Vec2) : Bool :=
  (decide (r.left < point.x) && decide (point.x < r.right)) &&
    (decide (r.bottom < point.y) && decide (point.y < r.top))

/-- Truthiness of a `Rect`.  The source defines no `__bool__` on `Rect`;
a NamedTuple falls back to tuple truthiness, `len(self) != 0`, and `Rect`
always has its 8 fields, so every `Rect` is truthy. -/
def Rect.toBool (_ : Rect) : Bool :=
  true

/-- The twelve stored fields of `Box` (a NamedTuple in the source). -/
structure Box where
  left : ℚ
  right : ℚ
  bottom : ℚ
  top : ℚ
  near : ℚ
  far : ℚ
  width : ℚ
  height : ℚ
  depth : ℚ
  x : ℚ
  y : ℚ
  z : ℚ
deriving DecidableEq

/-- Constructor `XYZWHD(x, y, z, width, height, depth)` from box.py. -/
def XYZWHD (x y z width height depth : ℚ) : Box :=
  let h_width := width / 2
  let h_height := height / 2
  let h_depth := depth / 2
  ⟨x - h_width, x + h_width, y - h_height, y + h_height, z - h_depth, z + h_depth,
    width, height, depth, x, y, z⟩

/-- Constructor `LRBTNF(left, right, bottom, top, near, far)` from box.py. -/
def LRBTNF (left right bottom top near far : ℚ) : Box :=
  let width := right - left
  let height := top - bottom
  let depth := far - near
  ⟨left, right, bottom, top, near, far, width, height, depth,
    left + width / 2, bottom + height / 2, near + depth / 2⟩

/-- `Box.overlaps(other)`: center-distance test, strict on every axis. -/
def Box.overlaps (b other : Box) : Bool :=
  decide ((other.width + b.width) / 2 > |b.x - other.x|) &&
    decide ((other.height + b.height) / 2 > |b.y - other.y|) &&
    decide ((other.depth + b.depth) / 2 > |b.z - other.z|)

/-- `Box.intersection(other)`: `None` when `overlaps` is false, else
`LRBTNF(max lower bounds, min upper bounds)` on all three axes. -/
def Box.intersection (b other : Box) : Option Box :=
  if b.overlaps other = false then none
  else some (LRBTNF (max b.left other.left) (min b.right other.right)
    (max b.bottom other.bottom) (min b.top other.top)
    (max b.near other.near) (min b.far other.far))

/-- `Box.point_in_box(point)` (also `__contains__`): non-strict bounds on all
three axes. -/
def Box.point_in_box (b : Box) (point : Vec3) : Bool :=
  (decide (b.left ≤ point.x) && decide (point.x ≤ b.right)) &&
    (decide (b.bottom ≤ point.y) && decide (point.y ≤ b.top)) &&
    (decide (b.near ≤ point.z) && decide (point.z ≤ b.far))

/-- The argument tuple of one `draw_arc_filled(center_x, center_y, width, height,
color, start_angle, end_angle, tilt_angle)` call, with the color type abstract. -/
structure ArcFilledCall (C : Type) where
  center_x : ℚ
  center_y : ℚ
  width : ℚ
  height : ℚ
  color : C
  start_angle : ℚ
  end_angle : ℚ
  tilt_angle : ℚ

/-- `draw_parabola_filled(start_x, start_y, end_x, height, color, tilt_angle)`
from parabola.py.  The function's entire body computes the arguments below and
makes the single `draw_arc_filled` call they parameterize; the embedding
returns that call. -/
def draw_parabola_filled {C : Type} (start_x start_y end_x height : ℚ)
    (color : C) (tilt_angle : ℚ) : ArcFilledCall C :=
  let center_x := (start_x + end_x) / 2
  let center_y := start_y + height
  let start_angle := 0
  let end_angle := 180
  let width := start_x - end_x
  ⟨center_x, center_y, width, height, color, start_angle, end_angle, tilt_angle⟩

/-- C1: the claimed invariants `right - left = width`, `top - bottom = height`,
`x = left + width/2`, `y = bottom + height/2` do NOT hold for every named
constructor: `XYWH(0, 0, 2, 4)` computes `bottom` and `top` from `width`, so
`top - bottom = 2` while the stored `height` is `4`, and `y = 0` differs from
`bottom + height/2 = 1`.  This theorem evaluates the code at that failing
input (the horizontal identities do hold there). -/
theorem rect_xywh_invariant_violation :
    (XYWH 0 0 2 4).right - (XYWH 0 0 2 4).left = (XYWH 0 0 2 4).width
  ∧ (XYWH 0 0 2 4).top - (XYWH 0 0 2 4).bottom = 2
  ∧ (XYWH 0 0 2 4).height = 4
  ∧ (XYWH 0 0 2 4).y ≠ (XYWH 0 0 2 4).bottom + (XYWH 0 0 2 4).height / 2 := by
  norm_num [XYWH]

/-- C2: the anchor-stays-fixed resize/scale property fails.  For the square
`LRBT(0, 2, 0, 2)` (width 2, height 2), `resize((2, 4), anchor=(0, 0))` should
keep the bottom-left corner at y = 0 and produce height 4; because the source
passes `(adjusted_left, adjusted_right, adjusted_top, adjusted_bottom)` to
`LRBT(left, right, bottom, top)`, the result instead has `bottom = 4` and
`height = -4`.  `scale(2, anchor=(0, 0))` moves the bottom the same way. -/
theorem rect_resize_scale_anchor_violation :
    ((LRBT 0 2 0 2).resize ⟨2, 4⟩ ⟨0, 0⟩).height = -4
  ∧ ((LRBT 0 2 0 2).resize ⟨2, 4⟩ ⟨0, 0⟩).bottom = 4
  ∧ (LRBT 0 2 0 2).bottom = 0
  ∧ ((LRBT 0 2 0 2).scale 2 ⟨0, 0⟩).bottom = 4 := by
  norm_num [Rect.resize, Rect.scale, LRBT]

/-- C3 counterexample: `a.intersect(b)` absent is NOT equivalent to
`a.overlaps(b)` false.  For the disjoint rects `LRBT(0, 1, 0, 1)` and
`LRBT(5, 6, 5, 6)`, `intersect` returns `None` (they do not collide), yet
`overlaps` is true because their union has positive width. -/
theorem rect_intersect_overlaps_mismatch :
    (LRBT 0 1 0 1).intersect (LRBT 5 6 5 6) = none
  ∧ (LRBT 0 1 0 1).overlaps (LRBT 5 6 5 6) = true := by
  norm_num [Rect.intersect, Rect.collides, Rect.overlaps, Rect.union, LRBT]

/-- C3 amended: `a.intersect(b)` is absent iff `a.collides(b)` is false, where
`collides` is the non-strict edge-comparison test; `overlaps(other)` is the
separate union-has-positive-width-or-height test, which can be true when
`intersect` is absent. -/
theorem rect_intersect_none_iff_not_collides (a b : Rect) :
    (a.intersect b = none ↔ a.collides b = false)
  ∧ (a.overlaps b = true ↔ (0 < (a.union b).width ∨ 0 < (a.union b).height)) := by
  constructor
  · cases h : a.collides b <;> simp [Rect.intersect, h]
  · simp [Rect.overlaps]

/-- C4: the center-based constructors compute the vertical bounds from the
width.  `XYWH(x, y, w, h)` returns `(x - w/2, x + w/2, y - w/2, y + w/2, w, h, x, y)`
and `XYRR(x, y, half_width, half_height)` returns `bottom = y - half_width`
and `top = y + half_width`. -/
theorem rect_center_constructors_use_width (x y width height : ℚ) :
    XYWH x y width height =
      ⟨x - width / 2, x + width / 2, y - width / 2, y + width / 2, width, height, x, y⟩
  ∧ (XYRR x y width height).bottom = y - width
  ∧ (XYRR x y width height).top = y + width :=
  ⟨rfl, rfl, rfl⟩

/-- C5: `move` does not round-trip for every constructor-produced rect.  For
`LBWH(0, 0, 2, 4)` (bottom 0, top 4), `move(1, 1)` followed by `move(-1, -1)`
yields a rect with `bottom = 1` and `top = 3`, because `move` rebuilds the
rect through `XYWH`, whose vertical bounds are computed from the width.  The
discrepancy is exactly 1, far outside floating tolerance. -/
theorem rect_move_round_trip_violation :
    ((LBWH 0 0 2 4).move 1 1).move (-1) (-1) ≠ LBWH 0 0 2 4
  ∧ (((LBWH 0 0 2 4).move 1 1).move (-1) (-1)).bottom = 1
  ∧ (LBWH 0 0 2 4).bottom = 0 := by
  norm_num [Rect.move, XYWH, LBWH]

/-- C6 counterexample: a rect of width 0 is still truthy, since `Rect`
defines no boolean conversion and an 8-field named tuple is non-empty. -/
theorem rect_zero_size_truthy :
    (LBWH 0 0 0 0).toBool = true ∧ (LBWH 0 0 0 0).width = 0 := by
  norm_num [Rect.toBool, LBWH]

/-- C6 amended: the boolean truthiness of every `Rect` is true, regardless of
its width and height. -/
theorem rect_toBool_always_true (r : Rect) : r.toBool = true :=
  rfl

/-- C7 counterexample: `min_size()` with no arguments does NOT pass a negative
width through unchanged (it is raised to the default floor 0), and
`max_size(width=0)` does NOT clamp to the ceiling 0 (a zero argument is falsy
in `width or float("inf")` and becomes an infinite ceiling). -/
theorem rect_min_max_size_clamp_quirks :
    ((LBWH 0 0 (-2) 3).min_size none none).width = 0
  ∧ (LBWH 0 0 (-2) 3).width = -2
  ∧ ((LBWH 0 0 5 5).max_size (some 0) none).width = 5 := by
  norm_num [Rect.min_size, Rect.max_size, pyFloatOr, pyMinWithInfCeil, LBWH]

/-- C7 amended: `min_size`/`max_size` return `LBWH(left, bottom, w2, h2)` with
left and bottom unchanged, where `min_size` takes the max of the supplied
floor (or 0 when omitted) with the current size — so an omitted dimension is
still clamped below by 0 — and `max_size` takes the min of the supplied
ceiling with the current size for a nonzero ceiling, while an omitted or zero
ceiling leaves the dimension unchanged. -/
theorem rect_min_max_size_spec (r : Rect) (w h w2 h2 : ℚ)
    (hw2 : w2 ≠ 0) (hh2 : h2 ≠ 0) :
    r.min_size (some w) (some h) = LBWH r.left r.bottom (max w r.width) (max h r.height)
  ∧ r.min_size none none = LBWH r.left r.bottom (max 0 r.width) (max 0 r.height)
  ∧ r.max_size (some w2) (some h2) = LBWH r.left r.bottom (min w2 r.width) (min h2 r.height)
  ∧ r.max_size none none = LBWH r.left r.bottom r.width r.height
  ∧ r.max_size (some 0) (some 0) = LBWH r.left r.bottom r.width r.height := by
  refine ⟨?_, rfl, ?_, rfl, ?_⟩
  · simp only [Rect.min_size, pyFloatOr]
    split_ifs <;> simp_all
  · simp [Rect.max_size, pyMinWithInfCeil, hw2, hh2]
  · simp [Rect.max_size, pyMinWithInfCeil]

/-- C7 witness: the amended statement applied to the concrete rect
`LBWH(0, 0, 2, 3)` with ceilings 4 and 1. -/
theorem rect_min_max_size_spec_witness :
    (4 : ℚ) ≠ 0 ∧ (1 : ℚ) ≠ 0
  ∧ (LBWH 0 0 2 3).max_size (some 4) (some 1) =
      LBWH (LBWH 0 0 2 3).left (LBWH 0 0 2 3).bottom
        (min 4 (LBWH 0 0 2 3).width) (min 1 (LBWH 0 0 2 3).height) :=
  ⟨by norm_num, by norm_num,
    (rect_min_max_size_spec (LBWH 0 0 2 3) 5 7 4 1 (by norm_num) (by norm_num)).2.2.1⟩

/-- C8: `Box.overlaps` holds iff on every axis half the summed extents
strictly exceeds the center distance, and `Box.intersection` returns `None`
exactly when `overlaps` is false, otherwise the `LRBTNF` box of componentwise
max lower bounds and min upper bounds on all three axes. -/
theorem box_overlaps_intersection_spec (a b : Box) :
    (a.overlaps b = true ↔
      ((a.width + b.width) / 2 > |a.x - b.x| ∧ (a.height + b.height) / 2 > |a.y - b.y|
        ∧ (a.depth + b.depth) / 2 > |a.z - b.z|))
  ∧ a.intersection b =
      (if a.overlaps b = true then
        some (LRBTNF (max a.left b.left) (min a.right b.right) (max a.bottom b.bottom)
          (min a.top b.top) (max a.near b.near) (min a.far b.far))
      else none) := by
  constructor
  · simp [Box.overlaps, add_comm, and_assoc]
  · cases h : a.overlaps b <;> simp [Box.intersection, h]

/-- C9: `draw_parabola_filled` does nothing but make one `draw_arc_filled`
call with `center_x = (start_x + end_x)/2`, `center_y = start_y + height`,
`width = start_x - end_x`, the given height and color, angles 0 and 180, and
the given tilt angle. -/
theorem draw_parabola_filled_forwards_to_arc {C : Type}
    (start_x start_y end_x height : ℚ) (color : C) (tilt_angle : ℚ) :
    draw_parabola_filled start_x start_y end_x height color tilt_angle =
      ⟨(start_x + end_x) / 2, start_y + height, start_x - end_x, height,
        color, 0, 180, tilt_angle⟩ :=
  rfl

/-- C10: `Box.point_in_box` uses non-strict bounds on all three axes, so
boundary points are contained, while `Rect.point_in_rect` uses strict bounds
on all four edges, excluding boundary points. -/
theorem box_containment_non_strict_rect_strict (b : Box) (p : Vec3) (r : Rect) (q : Vec2) :
    (b.point_in_box p = true ↔
      (b.left ≤ p.x ∧ p.x ≤ b.right ∧ b.bottom ≤ p.y ∧ p.y ≤ b.top
        ∧ b.near ≤ p.z ∧ p.z ≤ b.far))
  ∧ (r.point_in_rect q = true ↔
      (r.left < q.x ∧ q.x < r.right ∧ r.bottom < q.y ∧ q.y < r.top)) := by
  constructor <;> simp [Box.point_in_box, Rect.point_in_rect, and_assoc]
